import Mathlib

/-!
Verification of the RetroSnap image-grading pipeline.

The development shallowly embeds the grading code of `src/utils/imageUtils.ts`
(`applyVintageFilter`), the live-preview loop of
`src/components/RetroCamera.tsx` (`renderPreview`, `takePhoto`) and the
caption-update logic of the application root (`handlePhotoTaken`).

Bitmaps are lists of RGBA pixels with rational channel values.  Canvas
primitives that the browser implements (CSS-filter redraws, blend-mode
fills, Gaussian blur) are represented structurally: each call site is
translated into the ordered list of compositing operations it performs,
and the pixel pipeline is parametric in the semantics of those external
primitives.  The film-grain loop, which the source implements directly on
pixel data, is embedded concretely.
-/

namespace RetroSnap

/-- One RGBA pixel; channel values are rationals (the canvas stores bytes,
    clamping on write, which the grain loop models with `clamp255`). -/
structure Pixel where
  r : ℚ
  g : ℚ
  b : ℚ
  a : ℚ
deriving DecidableEq, Repr

/-- A bitmap, row-major list of pixels. -/
abbrev Bitmap := List Pixel

/-- The filter presets of `src/types` (`enum FilterType`). -/
inductive FilterType where
  | ORIGINAL
  | RETRO_CLASSIC
  | RETRO_NOIR
  | RETRO_INSTANT
  | CINE_TEAL_ORANGE
  | CINE_MOODY
  | CINE_VIVID
deriving DecidableEq, Repr

/-- CSS filter functions occurring in the source's `ctx.filter` strings. -/
inductive CssFilterFn where
  | sepia
  | saturate
  | contrast
  | brightness
  | grayscale
deriving DecidableEq, Repr

/-- Canvas composite operations used by the tint layers of the source. -/
inductive BlendMode where
  | overlay
  | screen
  | multiply
  | colorBurn
  | softLight
deriving DecidableEq, Repr

/-- What a tint layer fills with: a flat RGBA color, or a radial gradient
    given by its color stops (offset, r, g, b, alpha). -/
inductive LayerFill where
  | flat (r g b : ℕ) (a : ℚ)
  | radial (stops : List (ℚ × ℕ × ℕ × ℕ × ℚ))
deriving DecidableEq, Repr

/-- One compositing operation of a grading call site:
    `baseAdjust fns` redraws the frame through the CSS filter list `fns`;
    `tint mode fill filterCtx` fills the surface under composite mode
    `mode` while the CSS filter `filterCtx` is active on the context;
    `grain amplitude` runs the per-pixel noise loop. -/
inductive GradeOp where
  | baseAdjust (fns : List (CssFilterFn × ℚ))
  | tint (mode : BlendMode) (fill : LayerFill) (filterCtx : List (CssFilterFn × ℚ))
  | grain (amplitude : ℕ)
deriving DecidableEq, Repr

/-- The `ctx.filter` string set by the switch of `applyVintageFilter`
    (`src/utils/imageUtils.ts` lines 182-271), per preset. -/
def finalFilterString : FilterType → List (CssFilterFn × ℚ)
  | .ORIGINAL => []
  | .RETRO_CLASSIC =>
      [(.sepia, 2/5), (.saturate, 7/5), (.contrast, 11/10), (.brightness, 21/20)]
  | .RETRO_NOIR =>
      [(.grayscale, 1), (.contrast, 9/5), (.brightness, 9/10)]
  | .RETRO_INSTANT =>
      [(.contrast, 11/10), (.brightness, 6/5), (.saturate, 17/20), (.sepia, 1/5)]
  | .CINE_TEAL_ORANGE =>
      [(.contrast, 6/5), (.saturate, 11/10)]
  | .CINE_MOODY =>
      [(.saturate, 7/10), (.contrast, 7/5), (.brightness, 17/20)]
  | .CINE_VIVID =>
      [(.saturate, 11/5), (.contrast, 6/5), (.brightness, 21/20)]

/-- The `ctx.filter` string set by the switch of `renderPreview`
    (`src/components/RetroCamera.tsx` lines 181-205), per preset.
    Note `RETRO_INSTANT` uses `brightness(1.1)` there, unlike the final
    path's `brightness(1.2)`. -/
def liveFilterString : FilterType → List (CssFilterFn × ℚ)
  | .ORIGINAL => []
  | .RETRO_CLASSIC =>
      [(.sepia, 2/5), (.saturate, 7/5), (.contrast, 11/10), (.brightness, 21/20)]
  | .RETRO_NOIR =>
      [(.grayscale, 1), (.contrast, 9/5), (.brightness, 9/10)]
  | .RETRO_INSTANT =>
      [(.contrast, 11/10), (.brightness, 11/10), (.saturate, 17/20), (.sepia, 1/5)]
  | .CINE_TEAL_ORANGE =>
      [(.contrast, 6/5), (.saturate, 11/10)]
  | .CINE_MOODY =>
      [(.saturate, 7/10), (.contrast, 7/5), (.brightness, 17/20)]
  | .CINE_VIVID =>
      [(.saturate, 11/5), (.contrast, 6/5), (.brightness, 21/20)]

/-- Grain amplitude of `applyVintageFilter` line 278:
    `filterType === ORIGINAL ? 0 : (filterType === RETRO_NOIR ? 45 : 25)`. -/
def noiseAmount (filterType : FilterType) : ℕ :=
  if filterType = .ORIGINAL then 0 else if filterType = .RETRO_NOIR then 45 else 25

/-- Tint layers of the final-capture switch (`imageUtils.ts` lines 182-271).
    The final path resets `ctx.filter` to `'none'` before every fill, so
    each tint carries an empty filter context. -/
def finalTintOps : FilterType → List GradeOp
  | .ORIGINAL => []
  | .RETRO_CLASSIC =>
      [.tint .overlay (.flat 255 190 100 (3/10)) []]
  | .RETRO_NOIR =>
      [.tint .multiply (.radial [(0, 0, 0, 0, 0), (1, 0, 0, 0, 7/10)]) []]
  | .RETRO_INSTANT =>
      [.tint .screen (.flat 30 40 100 (1/4)) [],
       .tint .overlay (.flat 255 240 200 (3/20)) []]
  | .CINE_TEAL_ORANGE =>
      [.tint .overlay (.flat 255 160 0 (2/5)) [],
       .tint .colorBurn (.flat 0 220 255 (2/5)) []]
  | .CINE_MOODY =>
      [.tint .overlay (.flat 20 60 50 (3/5)) []]
  | .CINE_VIVID =>
      [.tint .softLight (.flat 80 0 100 (1/10)) []]

/-- Filter-pass operations of the final-capture path: for `ORIGINAL` the
    source just redraws the unfiltered base canvas (identity, no
    operation); otherwise it redraws the frame through the filter string
    and then paints the tint layers in order. -/
def finalFilterOps (filterType : FilterType) : List GradeOp :=
  match filterType with
  | .ORIGINAL => []
  | f => .baseAdjust (finalFilterString f) :: finalTintOps f

/-- Complete grading operations of the final-capture path, including the
    grain loop (`imageUtils.ts` lines 273-290), which runs only when the
    amplitude is positive. -/
def finalOps (filterType : FilterType) : List GradeOp :=
  finalFilterOps filterType ++
    (if 0 < noiseAmount filterType then [.grain (noiseAmount filterType)] else [])

/-- Complete grading operations of the live-preview path
    (`RetroCamera.tsx` lines 179-227).  The preview sets `ctx.filter` but
    never redraws the video frame through it, so no `baseAdjust` operation
    is performed on the frame; the active filter string only affects the
    subsequent tint fills, recorded here as each tint's filter context.
    For `RETRO_NOIR` and `CINE_VIVID` the preview performs no fill at all,
    and the preview has no grain loop. -/
def liveOps : FilterType → List GradeOp
  | .ORIGINAL => []
  | .RETRO_CLASSIC =>
      [.tint .overlay (.flat 255 190 100 (3/10)) (liveFilterString .RETRO_CLASSIC)]
  | .RETRO_NOIR => []
  | .RETRO_INSTANT =>
      [.tint .screen (.flat 30 40 100 (1/4)) (liveFilterString .RETRO_INSTANT)]
  | .CINE_TEAL_ORANGE =>
      [.tint .overlay (.flat 255 160 0 (3/10)) (liveFilterString .CINE_TEAL_ORANGE),
       .tint .colorBurn (.flat 0 220 255 (3/10)) (liveFilterString .CINE_TEAL_ORANGE)]
  | .CINE_MOODY =>
      [.tint .overlay (.flat 20 60 50 (1/2)) (liveFilterString .CINE_MOODY)]
  | .CINE_VIVID => []

/-- Clamping performed by `Math.max(0, Math.min(255, v))` in the grain loop
    (and by `Uint8ClampedArray` writes). -/
def clamp255 (x : ℚ) : ℚ := max 0 (min 255 x)

/-- One iteration of the grain loop (`imageUtils.ts` lines 283-288): the
    single sample `noise` is added to the R, G and B channels and each sum
    is clamped; the alpha channel (`data[i+3]`) is untouched. -/
def grainPixel (noise : ℚ) (p : Pixel) : Pixel :=
  { r := clamp255 (p.r + noise)
    g := clamp255 (p.g + noise)
    b := clamp255 (p.b + noise)
    a := p.a }

/-- The grain loop from pixel index `i` on: each pixel draws one fresh
    sample `rng i` and receives the offset `(rng i - 1/2) * amplitude`,
    mirroring `const noise = (Math.random() - 0.5) * noiseAmount`. -/
def injectGrainFrom (amplitude : ℚ) (rng : ℕ → ℚ) : ℕ → Bitmap → Bitmap
  | _, [] => []
  | i, p :: ps => grainPixel ((rng i - 1/2) * amplitude) p :: injectGrainFrom amplitude rng (i + 1) ps

/-- The grain loop over a whole bitmap. -/
def injectGrain (bm : Bitmap) (amplitude : ℚ) (rng : ℕ → ℚ) : Bitmap :=
  injectGrainFrom amplitude rng 0 bm

/-- The guarded grain stage `if (noiseAmount > 0) { ... }` of
    `imageUtils.ts` lines 280-290: with amplitude `0` the per-pixel loop
    does not run at all. -/
def grainStage (amplitude : ℕ) (bm : Bitmap) (rng : ℕ → ℚ) : Bitmap :=
  if 0 < amplitude then injectGrain bm (amplitude : ℚ) rng else bm

/-- The grain pass of the final-capture path: amplitude derived from the
    preset by `noiseAmount`. -/
def grainPass (filterType : FilterType) (bm : Bitmap) (rng : ℕ → ℚ) : Bitmap :=
  grainStage (noiseAmount filterType) bm rng

/-- Screen blend of two channel values, `255 - (255-a)*(255-b)/255`. -/
def screenChannel (dst src : ℚ) : ℚ := 255 - (255 - dst) * (255 - src) / 255

/-- Linear interpolation by `alpha` between the original destination value
    and the blended value (the effect of `globalAlpha` on a composite). -/
def lerp (alpha dst blended : ℚ) : ℚ := (1 - alpha) * dst + alpha * blended

/-- Screen-composite one source pixel over one destination pixel at the
    given `globalAlpha`. -/
def screenCompositePixel (alpha : ℚ) (dst src : Pixel) : Pixel :=
  { r := lerp alpha dst.r (screenChannel dst.r src.r)
    g := lerp alpha dst.g (screenChannel dst.g src.g)
    b := lerp alpha dst.b (screenChannel dst.b src.b)
    a := dst.a }

/-- Screen-composite a source bitmap over a destination bitmap at the
    given `globalAlpha`. -/
def compositeScreen (dst src : Bitmap) (alpha : ℚ) : Bitmap :=
  List.zipWith (screenCompositePixel alpha) dst src

/-- Beautify pass of the final-capture path (`imageUtils.ts` lines
    148-170): only if `beautyLevel > 0`, blur a copy of the current bitmap
    with radius `3 + strength*8` and screen-composite it over the original
    at `globalAlpha = 0.5 * strength`.  `blurF` is the browser's
    `blur(radius)` primitive, kept parametric. -/
def beautifyFinal (blurF : ℚ → Bitmap → Bitmap) (beautyLevel : ℕ) (bm : Bitmap) : Bitmap :=
  if 0 < beautyLevel then
    let strength : ℚ := (beautyLevel : ℚ) / 100
    compositeScreen bm (blurF (3 + strength * 8) bm) (1/2 * strength)
  else bm

/-- Beautify pass of the live-preview path (`RetroCamera.tsx` lines
    165-177): only if `beautyLevel > 0`, redraw the video frame through
    `blur(5 + strength*12)` with screen composite at
    `globalAlpha = strength * 0.6`. -/
def beautifyLive (blurF : ℚ → Bitmap → Bitmap) (beautyLevel : ℕ) (bm : Bitmap) : Bitmap :=
  if 0 < beautyLevel then
    let strength : ℚ := (beautyLevel : ℚ) / 100
    compositeScreen bm (blurF (5 + strength * 12) bm) (strength * (3/5))
  else bm

/-- Apply a list of grading operations left to right; `sem` is the
    browser-provided pixel semantics of one canvas operation. -/
def applyOps (sem : GradeOp → Bitmap → Bitmap) (ops : List GradeOp) (bm : Bitmap) : Bitmap :=
  ops.foldl (fun acc op => sem op acc) bm

/-- The whole pixel pipeline of `applyVintageFilter` on a decoded bitmap:
    beautify pass, then the filter-pass operations of the preset, then the
    grain pass. -/
def gradeFinal (sem : GradeOp → Bitmap → Bitmap) (blurF : ℚ → Bitmap → Bitmap)
    (filterType : FilterType) (beautyLevel : ℕ) (rng : ℕ → ℚ) (bm : Bitmap) : Bitmap :=
  grainPass filterType (applyOps sem (finalFilterOps filterType) (beautifyFinal blurF beautyLevel bm)) rng

/-- Result of `applyVintageFilter`: either the untouched input source
    string (decode failure or missing 2D context) or the graded bitmap
    encoded by `canvas.toDataURL('image/jpeg', quality)`. -/
inductive FilterResult where
  | passthrough (src : String)
  | encoded (image : Bitmap) (quality : ℚ)
deriving DecidableEq

/-- Shallow embedding of `applyVintageFilter` (`imageUtils.ts` lines
    126-296).  `decoded` is the outcome of image decoding (`img.onload`
    versus `img.onerror`), `ctxOk` whether `canvas.getContext('2d')`
    succeeded.  The promise always resolves: on decode failure or missing
    context it resolves with the input `imageSrc`, otherwise with the
    graded bitmap encoded at JPEG quality 0.92. -/
def applyVintageFilter (sem : GradeOp → Bitmap → Bitmap) (blurF : ℚ → Bitmap → Bitmap)
    (imageSrc : String) (decoded : Option Bitmap) (ctxOk : Bool)
    (filterType : FilterType) (beautyLevel : ℕ) (rng : ℕ → ℚ) : FilterResult :=
  match decoded with
  | none => .passthrough imageSrc
  | some img =>
      if ctxOk then
        .encoded (gradeFinal sem blurF filterType beautyLevel rng img) (92/100)
      else
        .passthrough imageSrc

/-- Component state of `RetroCamera` relevant to the shutter action. -/
structure CamState where
  isShooting : Bool
  isCameraOn : Bool
  showSettings : Bool
  videoReadyState : ℕ
deriving DecidableEq, Repr

/-- The grading request a successful shutter press hands to
    `applyVintageFilter`. -/
structure ShotRequest where
  filter : FilterType
  beautyLevel : ℕ
deriving DecidableEq, Repr

/-- Shallow embedding of `takePhoto` (`RetroCamera.tsx` lines 361-425):
    the synchronous part of the handler.  The guard
    `if (!videoRef.current || !captureCanvasRef.current || isShooting || !isCameraOn) return;`
    and the ready-state check return without touching state or producing a
    capture; otherwise `isShooting` is set, the settings panel closes, and
    a capture is started when the 2D context is available. -/
def takePhoto (hasVideo hasCanvas hasContext : Bool) (s : CamState)
    (activeFilter : FilterType) (beautyLevel : ℕ) : CamState × Option ShotRequest :=
  if !hasVideo || !hasCanvas || s.isShooting || !s.isCameraOn then (s, none)
  else if s.videoReadyState < 2 then (s, none)
  else
    let s' := { s with isShooting := true, showSettings := false }
    if hasContext then (s', some ⟨activeFilter, beautyLevel⟩) else (s', none)

/-- A gallery photo record (`src/types`, `interface Photo`); `caption` is
    `string | null`. -/
structure Photo where
  id : String
  dataUrl : String
  caption : Option String
  timestamp : ℕ
  isDeveloping : Bool
  x : ℚ
  y : ℚ
  rotation : ℚ
  zIndex : ℕ
deriving DecidableEq, Repr

/-- The placeholder caption written at capture time when AI captioning is
    enabled. -/
def writingPlaceholder : String := "✨ Writing..."

/-- The default caption used when AI captioning is disabled or fails. -/
def defaultCaption : String := "Beautiful Moment"

/-- JavaScript truthiness of `p.caption`: `!p.caption` holds for `null`
    and for the empty string. -/
def captionFalsy : Option String → Bool
  | none => true
  | some s => s == ""

/-- Per-photo update applied when the AI caption resolves
    (`handlePhotoTaken`, success branch): write the AI caption only when
    the photo is the captured one and its caption is still the placeholder
    or falsy (`p.caption === "✨ Writing..." || !p.caption`). -/
def aiSuccessPhoto (targetId aiCaption : String) (p : Photo) : Photo :=
  if p.id == targetId && (p.caption == some writingPlaceholder || captionFalsy p.caption)
  then { p with caption := some aiCaption } else p

/-- Per-photo update applied when the AI caption fails
    (`handlePhotoTaken`, catch branch): reset to the default caption only
    when the photo is the captured one and its caption is still exactly
    the placeholder. -/
def aiFailurePhoto (targetId : String) (p : Photo) : Photo :=
  if p.id == targetId && p.caption == some writingPlaceholder
  then { p with caption := some defaultCaption } else p

/-- The success branch `setPhotos(prev => prev.map(...))`. -/
def aiSuccessUpdate (targetId aiCaption : String) (photos : List Photo) : List Photo :=
  photos.map (aiSuccessPhoto targetId aiCaption)

/-- The failure branch `setPhotos(prev => prev.map(...))`. -/
def aiFailureUpdate (targetId : String) (photos : List Photo) : List Photo :=
  photos.map (aiFailurePhoto targetId)

/-- A concrete photo whose caption the user has cleared to the empty
    string while the AI call was in flight. -/
def clearedPhoto : Photo :=
  { id := "1"
    dataUrl := "data:image/jpeg;base64,AAAA"
    caption := some ""
    timestamp := 0
    isDeveloping := false
    x := 0
    y := 0
    rotation := 0
    zIndex := 11 }

/-- A concrete photo whose caption the user has edited to a non-empty text
    while the AI call was in flight. -/
def editedPhoto : Photo := { clearedPhoto with caption := some "My note" }

/-- Property of one grain-loop iteration: the output pixel arises from the
    input pixel by one shared offset `n` of magnitude at most
    `amplitude/2` added to R, G and B (alpha untouched), with the results
    clamped to `[0, 255]`. -/
def grainPixelSpec (amplitude : ℚ) (p q : Pixel) : Prop :=
  ∃ n : ℚ, -(amplitude/2) ≤ n ∧ n ≤ amplitude/2 ∧
    q.r = clamp255 (p.r + n) ∧ q.g = clamp255 (p.g + n) ∧ q.b = clamp255 (p.b + n) ∧
    q.a = p.a ∧
    0 ≤ q.r ∧ q.r ≤ 255 ∧ 0 ≤ q.g ∧ q.g ≤ 255 ∧ 0 ≤ q.b ∧ q.b ≤ 255

end RetroSnap

namespace RetroSnap

/-- C1: the claim states that for every preset the live-preview and
    final-capture paths apply the same recipe (same base parameters, same
    ordered tint layers with the same blend modes and opacities, same
    grain pass).  This is false already for `RETRO_NOIR`: the final path
    redraws the frame through `grayscale(1) contrast(1.8) brightness(0.9)`,
    multiplies a radial vignette on top and injects amplitude-45 grain,
    while the preview path performs no operation at all for that preset. -/
theorem c1_counterexample_noir_recipes_differ :
    finalOps .RETRO_NOIR ≠ liveOps .RETRO_NOIR := by
  intro h
  simpa [finalOps, finalFilterOps, finalTintOps, noiseAmount, liveOps] using
    congrArg List.length h

/-- C1 (amended): the two paths perform identical grading operations only
    for `ORIGINAL` (where both do nothing); for every other preset the
    operation lists differ — the preview never applies the base adjust to
    the frame, omits or weakens tint layers, and has no grain pass. -/
theorem c1_amended_paths_agree_only_on_original :
    finalOps .ORIGINAL = liveOps .ORIGINAL ∧
    ∀ f : FilterType, f ≠ .ORIGINAL → finalOps f ≠ liveOps f := by
  refine ⟨rfl, ?_⟩
  intro f hf h
  have hlen := congrArg List.length h
  cases f <;>
    simp [finalOps, finalFilterOps, finalTintOps, noiseAmount, liveOps] at hlen hf ⊢

/-- C1 witness: the amended inequality at the concrete preset `CINE_MOODY`. -/
theorem c1_witness : finalOps .CINE_MOODY ≠ liveOps .CINE_MOODY :=
  c1_amended_paths_agree_only_on_original.2 .CINE_MOODY (by decide)

/-- C2: the grain amplitude is exactly 0 for `ORIGINAL`, exactly 45 for
    `RETRO_NOIR`, exactly 25 for every other preset, and the per-pixel
    grain loop runs exactly when the amplitude is positive: with a zero
    amplitude the bitmap passes through untouched, with a positive one the
    stage is the grain injection itself. -/
theorem c2_grain_amplitude :
    noiseAmount .ORIGINAL = 0 ∧
    noiseAmount .RETRO_NOIR = 45 ∧
    (∀ f : FilterType, f ≠ .ORIGINAL → f ≠ .RETRO_NOIR → noiseAmount f = 25) ∧
    (∀ (f : FilterType) (bm : Bitmap) (rng : ℕ → ℚ),
      noiseAmount f = 0 → grainPass f bm rng = bm) ∧
    (∀ (f : FilterType) (bm : Bitmap) (rng : ℕ → ℚ),
      0 < noiseAmount f →
        grainPass f bm rng = injectGrain bm (noiseAmount f : ℚ) rng) := by
  refine ⟨rfl, rfl, ?_, ?_, ?_⟩
  · intro f h1 h2
    cases f <;> simp_all [noiseAmount]
  · intro f bm rng h
    simp [grainPass, grainStage, h]
  · intro f bm rng h
    simp [grainPass, grainStage, h]

/-- C2 witness: the 25-amplitude case at the concrete preset `CINE_VIVID`. -/
theorem c2_witness : noiseAmount .CINE_VIVID = 25 :=
  c2_grain_amplitude.2.2.1 .CINE_VIVID (by decide) (by decide)

/-- C3: grading with filter `ORIGINAL` and `beautyLevel = 0` leaves the
    decoded image unchanged: the beautify pass is skipped, the filter pass
    performs no operation, the grain pass is skipped, and the result is
    the input bitmap itself, handed unmodified to the JPEG encoder
    (`canvas.toDataURL('image/jpeg', 0.92)`). -/
theorem c3_original_identity (sem : GradeOp → Bitmap → Bitmap)
    (blurF : ℚ → Bitmap → Bitmap) (imageSrc : String) (bm : Bitmap) (rng : ℕ → ℚ) :
    applyVintageFilter sem blurF imageSrc (some bm) true .ORIGINAL 0 rng =
      .encoded bm (92/100) := by
  simp [applyVintageFilter, gradeFinal, beautifyFinal, finalFilterOps, applyOps,
    grainPass, grainStage, noiseAmount]

/-- C6: `applyVintageFilter` never rejects; when decoding fails
    (`img.onerror`) or the 2D context cannot be acquired it resolves with
    the original input source unchanged, for every filter and beauty
    level. -/
theorem c6_passthrough_degradation (sem : GradeOp → Bitmap → Bitmap)
    (blurF : ℚ → Bitmap → Bitmap) (imageSrc : String) (bm : Bitmap) (ctxOk : Bool)
    (filterType : FilterType) (beautyLevel : ℕ) (rng : ℕ → ℚ) :
    applyVintageFilter sem blurF imageSrc none ctxOk filterType beautyLevel rng =
      .passthrough imageSrc ∧
    applyVintageFilter sem blurF imageSrc (some bm) false filterType beautyLevel rng =
      .passthrough imageSrc := by
  exact ⟨rfl, rfl⟩

/-- C7: with `beautyLevel = 0` the beautify pass is a byte-for-byte no-op
    on both paths: the bitmap entering the filter pass is exactly the
    bitmap that entered the beautify pass, and the whole final pipeline
    degenerates to filter pass plus grain pass. -/
theorem c7_beauty_zero_noop (blurF : ℚ → Bitmap → Bitmap) (bm : Bitmap) :
    beautifyFinal blurF 0 bm = bm ∧
    beautifyLive blurF 0 bm = bm ∧
    ∀ (sem : GradeOp → Bitmap → Bitmap) (f : FilterType) (rng : ℕ → ℚ),
      gradeFinal sem blurF f 0 rng bm =
        grainPass f (applyOps sem (finalFilterOps f) bm) rng := by
  refine ⟨by simp [beautifyFinal], by simp [beautifyLive], ?_⟩
  intro sem f rng
  simp [gradeFinal, beautifyFinal]

/-- C4: for `beautyLevel` in 1..100 and `strength = beautyLevel/100`, the
    final-capture beautify pass blurs with radius `3 + strength*8` and
    screen-composites at opacity `0.5*strength`, while the live-preview
    pass blurs with radius `5 + strength*12` and screen-composites at
    opacity `strength*0.6`; for every such level the two radius/opacity
    pairs are distinct constants. -/
theorem c4_beautify_constants (blurF : ℚ → Bitmap → Bitmap) (bm : Bitmap)
    (beautyLevel : ℕ) (h1 : 1 ≤ beautyLevel) (h2 : beautyLevel ≤ 100) :
    beautifyFinal blurF beautyLevel bm =
      compositeScreen bm (blurF (3 + ((beautyLevel : ℚ)/100) * 8) bm)
        (1/2 * ((beautyLevel : ℚ)/100)) ∧
    beautifyLive blurF beautyLevel bm =
      compositeScreen bm (blurF (5 + ((beautyLevel : ℚ)/100) * 12) bm)
        (((beautyLevel : ℚ)/100) * (3/5)) ∧
    3 + ((beautyLevel : ℚ)/100) * 8 ≠ 5 + ((beautyLevel : ℚ)/100) * 12 ∧
    1/2 * ((beautyLevel : ℚ)/100) ≠ ((beautyLevel : ℚ)/100) * (3/5) := by
  have hp : 0 < beautyLevel := h1
  have h1q : (1 : ℚ) ≤ (beautyLevel : ℚ) := by exact_mod_cast h1
  refine ⟨by simp [beautifyFinal, hp], by simp [beautifyLive, hp], ?_, ?_⟩
  · intro h
    have : ((beautyLevel : ℚ)/100) * 4 = -2 := by linarith
    linarith
  · intro h
    have : ((beautyLevel : ℚ)/100) * (1/10) = 0 := by linarith
    linarith

/-- C4 witness: the distinctness of the two radius formulas at the
    concrete level 80. -/
theorem c4_witness :
    3 + ((80 : ℕ) : ℚ)/100 * 8 ≠ 5 + ((80 : ℕ) : ℚ)/100 * 12 :=
  (c4_beautify_constants (fun _ b => b) [] 80 (by norm_num) (by norm_num)).2.2.1

/-- Nonnegativity of the clamp. -/
theorem clamp255_nonneg (x : ℚ) : 0 ≤ clamp255 x := le_max_left 0 _

/-- Upper bound of the clamp. -/
theorem clamp255_le_255 (x : ℚ) : clamp255 x ≤ 255 :=
  max_le (by norm_num) (min_le_left 255 x)

/-- The grain loop from any start index satisfies `grainPixelSpec`
    pairwise, given a random stream in `[0, 1)` and a nonnegative
    amplitude. -/
theorem injectGrainFrom_forall₂ (amplitude : ℚ) (rng : ℕ → ℚ)
    (hamp : 0 ≤ amplitude) (hrng : ∀ k, 0 ≤ rng k ∧ rng k < 1) :
    ∀ (l : Bitmap) (i : ℕ),
      List.Forall₂ (grainPixelSpec amplitude) l (injectGrainFrom amplitude rng i l) := by
  intro l
  induction l with
  | nil => intro i; exact List.Forall₂.nil
  | cons p ps ih =>
      intro i
      refine List.Forall₂.cons ?_ (ih (i + 1))
      obtain ⟨hr0, hr1⟩ := hrng i
      refine ⟨(rng i - 1/2) * amplitude, ?_, ?_, rfl, rfl, rfl, rfl,
        clamp255_nonneg _, clamp255_le_255 _, clamp255_nonneg _, clamp255_le_255 _,
        clamp255_nonneg _, clamp255_le_255 _⟩
      · have := mul_le_mul_of_nonneg_right
          (show (-(1/2) : ℚ) ≤ rng i - 1/2 by linarith) hamp
        linarith
      · have := mul_le_mul_of_nonneg_right
          (show rng i - 1/2 ≤ 1/2 by linarith) hamp
        linarith

/-- C5: grain injection adds, per pixel, one offset of magnitude at most
    `amplitude/2` (the offset `(random - 0.5) * amplitude` with
    `random ∈ [0,1)`) to each of R, G, B but never to alpha, clamping each
    resulting channel to `[0, 255]`; and the guarded grain stage with
    amplitude 0 performs no per-pixel work, returning the bitmap
    unchanged. -/
theorem c5_grain_injection (amplitude : ℚ) (rng : ℕ → ℚ) (bm : Bitmap)
    (hamp : 0 ≤ amplitude) (hrng : ∀ k, 0 ≤ rng k ∧ rng k < 1) :
    List.Forall₂ (grainPixelSpec amplitude) bm (injectGrain bm amplitude rng) ∧
    ∀ (bm2 : Bitmap) (rng2 : ℕ → ℚ), grainStage 0 bm2 rng2 = bm2 := by
  exact ⟨injectGrainFrom_forall₂ amplitude rng hamp hrng bm 0,
    fun bm2 rng2 => by simp [grainStage]⟩

/-- C5 witness: the pairwise grain property at a concrete one-pixel bitmap,
    amplitude 25 and the constant random stream 1/2. -/
theorem c5_witness :
    List.Forall₂ (grainPixelSpec 25) [⟨10, 20, 30, 255⟩]
      (injectGrain [⟨10, 20, 30, 255⟩] 25 (fun _ => 1/2)) :=
  (c5_grain_injection 25 (fun _ => 1/2) [⟨10, 20, 30, 255⟩] (by norm_num)
    (fun _ => ⟨by norm_num, by norm_num⟩)).1

/-- Length preservation of the grain loop. -/
theorem injectGrainFrom_length (amplitude : ℚ) (rng : ℕ → ℚ) :
    ∀ (l : Bitmap) (i : ℕ), (injectGrainFrom amplitude rng i l).length = l.length := by
  intro l
  induction l with
  | nil => intro i; rfl
  | cons p ps ih => intro i; simp [injectGrainFrom, ih]

/-- The `i`-th output pixel of the grain loop started at index `j` is the
    `i`-th input pixel offset by the single sample `rng (j + i)`. -/
theorem injectGrainFrom_get (amplitude : ℚ) (rng : ℕ → ℚ) :
    ∀ (l : Bitmap) (j i : ℕ) (h : i < (injectGrainFrom amplitude rng j l).length)
      (h2 : i < l.length),
      (injectGrainFrom amplitude rng j l).get ⟨i, h⟩ =
        grainPixel ((rng (j + i) - 1/2) * amplitude) (l.get ⟨i, h2⟩) := by
  intro l
  induction l with
  | nil => intro j i h h2; simp at h2
  | cons p ps ih =>
      intro j i h h2
      cases i with
      | zero => rfl
      | succ k =>
          have h' : k < (injectGrainFrom amplitude rng (j + 1) ps).length := by
            simpa [injectGrainFrom] using h
          have h2' : k < ps.length := by simpa using h2
          have e := ih (j + 1) k h' h2'
          have harg : j + 1 + k = j + (k + 1) := by omega
          rw [harg] at e
          exact e

/-- C9: within each pixel the grain loop draws one random sample and adds
    the identical offset `(rng i - 1/2) * amplitude` to R, G and B
    (monochrome grain); whenever no clamping occurs, the three channel
    deltas of one pixel are equal to that single offset. -/
theorem c9_monochrome_grain (amplitude : ℚ) (rng : ℕ → ℚ) (bm : Bitmap) (i : ℕ)
    (h1 : i < bm.length) (h2 : i < (injectGrain bm amplitude rng).length) :
    (injectGrain bm amplitude rng).get ⟨i, h2⟩ =
      grainPixel ((rng i - 1/2) * amplitude) (bm.get ⟨i, h1⟩) ∧
    ∀ (n : ℚ) (p : Pixel),
      0 ≤ p.r + n → p.r + n ≤ 255 → 0 ≤ p.g + n → p.g + n ≤ 255 →
      0 ≤ p.b + n → p.b + n ≤ 255 →
      (grainPixel n p).r - p.r = n ∧ (grainPixel n p).g - p.g = n ∧
        (grainPixel n p).b - p.b = n := by
  constructor
  · have e := injectGrainFrom_get amplitude rng bm 0 i h2 h1
    simpa [injectGrain] using e
  · intro n p hr1 hr2 hg1 hg2 hb1 hb2
    have er : clamp255 (p.r + n) = p.r + n := by
      unfold clamp255; rw [min_eq_right hr2, max_eq_right hr1]
    have eg : clamp255 (p.g + n) = p.g + n := by
      unfold clamp255; rw [min_eq_right hg2, max_eq_right hg1]
    have eb : clamp255 (p.b + n) = p.b + n := by
      unfold clamp255; rw [min_eq_right hb2, max_eq_right hb1]
    refine ⟨?_, ?_, ?_⟩ <;> simp [grainPixel, er, eg, eb]

/-- C9 witness: the shared-offset characterization at pixel index 1 of a
    concrete two-pixel bitmap. -/
theorem c9_witness :
    (injectGrain [⟨1, 2, 3, 255⟩, ⟨4, 5, 6, 255⟩] 10 (fun k => (k : ℚ))).get
        ⟨1, by simp [injectGrain, injectGrainFrom]⟩ =
      grainPixel (((1 : ℚ) - 1/2) * 10)
        (([⟨1, 2, 3, 255⟩, ⟨4, 5, 6, 255⟩] : Bitmap).get ⟨1, by simp⟩) :=
  (c9_monochrome_grain 10 (fun k => (k : ℚ)) [⟨1, 2, 3, 255⟩, ⟨4, 5, 6, 255⟩] 1
    (by simp) (by simp [injectGrain, injectGrainFrom])).1

/-- C8: while a capture is in flight (`isShooting = true`) a renewed
    shutter press is a no-op: `takePhoto` returns the state unchanged and
    produces no capture request. -/
theorem c8_no_reentrant_capture (hasVideo hasCanvas hasContext : Bool) (s : CamState)
    (f : FilterType) (lvl : ℕ) (h : s.isShooting = true) :
    takePhoto hasVideo hasCanvas hasContext s f lvl = (s, none) := by
  simp [takePhoto, h]

/-- C8 witness: the guard at a concrete in-flight state. -/
theorem c8_witness :
    takePhoto true true true ⟨true, true, false, 4⟩ .CINE_MOODY 80 =
      (⟨true, true, false, 4⟩, none) :=
  c8_no_reentrant_capture true true true ⟨true, true, false, 4⟩ .CINE_MOODY 80 rfl

/-- C10: the claim states the AI result is written only if the photo's
    caption still equals the placeholder.  This is false: the success
    guard is `p.caption === "✨ Writing..." || !p.caption`, so a caption
    the user has cleared to the empty string — which does not equal the
    placeholder — is overwritten by the AI result. -/
theorem c10_counterexample_cleared_caption_overwritten :
    clearedPhoto.caption ≠ some writingPlaceholder ∧
    (aiSuccessPhoto "1" "Golden afternoon" clearedPhoto).caption =
      some "Golden afternoon" := by
  constructor
  · simp [clearedPhoto, writingPlaceholder]
  · rfl

/-- C10 (amended): the AI result is written only if the photo is the
    captured one and its caption is still the placeholder, `null`, or the
    empty string; a non-empty caption differing from the placeholder is
    never overwritten; on failure the caption is reset to the default only
    when it is exactly the placeholder; and in both branches every field
    other than the caption — including the image data — is unchanged. -/
theorem c10_amended_caption_update (targetId aiCaption : String) (p : Photo) :
    ((aiSuccessPhoto targetId aiCaption p).id = p.id ∧
     (aiSuccessPhoto targetId aiCaption p).dataUrl = p.dataUrl ∧
     (aiSuccessPhoto targetId aiCaption p).timestamp = p.timestamp ∧
     (aiSuccessPhoto targetId aiCaption p).isDeveloping = p.isDeveloping ∧
     (aiSuccessPhoto targetId aiCaption p).x = p.x ∧
     (aiSuccessPhoto targetId aiCaption p).y = p.y ∧
     (aiSuccessPhoto targetId aiCaption p).rotation = p.rotation ∧
     (aiSuccessPhoto targetId aiCaption p).zIndex = p.zIndex) ∧
    ((aiSuccessPhoto targetId aiCaption p).caption = p.caption ∨
      (p.id = targetId ∧
       (p.caption = some writingPlaceholder ∨ p.caption = none ∨ p.caption = some "") ∧
       (aiSuccessPhoto targetId aiCaption p).caption = some aiCaption)) ∧
    (∀ s : String, p.caption = some s → s ≠ writingPlaceholder → s ≠ "" →
      aiSuccessPhoto targetId aiCaption p = p) ∧
    ((aiFailurePhoto targetId p).id = p.id ∧
     (aiFailurePhoto targetId p).dataUrl = p.dataUrl ∧
     (aiFailurePhoto targetId p).timestamp = p.timestamp ∧
     (aiFailurePhoto targetId p).isDeveloping = p.isDeveloping ∧
     (aiFailurePhoto targetId p).x = p.x ∧
     (aiFailurePhoto targetId p).y = p.y ∧
     (aiFailurePhoto targetId p).rotation = p.rotation ∧
     (aiFailurePhoto targetId p).zIndex = p.zIndex) ∧
    ((aiFailurePhoto targetId p).caption = p.caption ∨
      (p.id = targetId ∧ p.caption = some writingPlaceholder ∧
       (aiFailurePhoto targetId p).caption = some defaultCaption)) := by
  unfold aiSuccessPhoto aiFailurePhoto
  by_cases hs : (p.id == targetId &&
      (p.caption == some writingPlaceholder || captionFalsy p.caption)) = true
  · rw [if_pos hs]
    simp only [Bool.and_eq_true, Bool.or_eq_true, beq_iff_eq] at hs
    obtain ⟨hid, hcap⟩ := hs
    have hcap' : p.caption = some writingPlaceholder ∨ p.caption = none ∨
        p.caption = some "" := by
      rcases hcap with hcap | hcap
      · exact Or.inl hcap
      · rcases hp : p.caption with _ | s
        · exact Or.inr (Or.inl rfl)
        · rw [hp] at hcap
          simp only [captionFalsy, beq_iff_eq] at hcap
          exact Or.inr (Or.inr (by rw [hcap]))
    refine ⟨⟨rfl, rfl, rfl, rfl, rfl, rfl, rfl, rfl⟩,
      Or.inr ⟨hid, hcap', rfl⟩, ?_, ?_, ?_⟩
    · intro s hps hs1 hs2
      rcases hcap' with h | h | h <;> rw [hps] at h <;> simp_all
    · by_cases hf : (p.id == targetId && p.caption == some writingPlaceholder) = true
      · rw [if_pos hf]; exact ⟨rfl, rfl, rfl, rfl, rfl, rfl, rfl, rfl⟩
      · rw [if_neg hf]; exact ⟨rfl, rfl, rfl, rfl, rfl, rfl, rfl, rfl⟩
    · by_cases hf : (p.id == targetId && p.caption == some writingPlaceholder) = true
      · rw [if_pos hf]
        simp only [Bool.and_eq_true, beq_iff_eq] at hf
        exact Or.inr ⟨hf.1, hf.2, rfl⟩
      · rw [if_neg hf]; exact Or.inl rfl
  · rw [if_neg hs]
    refine ⟨⟨rfl, rfl, rfl, rfl, rfl, rfl, rfl, rfl⟩, Or.inl rfl,
      fun _ _ _ _ => rfl, ?_, ?_⟩
    · by_cases hf : (p.id == targetId && p.caption == some writingPlaceholder) = true
      · rw [if_pos hf]; exact ⟨rfl, rfl, rfl, rfl, rfl, rfl, rfl, rfl⟩
      · rw [if_neg hf]; exact ⟨rfl, rfl, rfl, rfl, rfl, rfl, rfl, rfl⟩
    · by_cases hf : (p.id == targetId && p.caption == some writingPlaceholder) = true
      · rw [if_pos hf]
        simp only [Bool.and_eq_true, beq_iff_eq] at hf
        exact Or.inr ⟨hf.1, hf.2, rfl⟩
      · rw [if_neg hf]; exact Or.inl rfl

/-- C10 witness: a concretely edited non-empty caption survives the AI
    result. -/
theorem c10_witness :
    aiSuccessPhoto "1" "Golden afternoon" editedPhoto = editedPhoto :=
  (c10_amended_caption_update "1" "Golden afternoon" editedPhoto).2.2.1
    "My note" rfl (by decide) (by decide)

end RetroSnap
